import Mathlib

/-!
Verification development for the whatsapp-api service: a shallow embedding of
the session-lifecycle, messaging and webhook code
(`src/whatsapp/whatsapp.service.ts`, `WebhookService`, and the Mongoose
schemas) together with theorems settling the specified properties.

Modelling conventions:
* The persisted Mongo collections (`Session`, `Message`, `Webhook`) are lists
  of records; `updateOne … upsert` updates the first matching document or
  appends a fresh one built from the schema defaults.
* The in-memory maps (`clients`, `qrCodes`) are association lists, and the
  sets (`initializingClients`, `readyTimeouts`) are lists of identities.
* The external `whatsapp-web.js` client is an opaque handle carrying its
  `info` presence field and capability-reported state string; its fallible
  operations (`initialize`, `sendMessage`, the HTTP post of axios) are
  supplied as explicit `Except` outcomes.
* Timestamps are `Nat`; the ISO timestamp string in webhook envelopes is a
  `String` parameter.
-/

/-- Persisted session status (`session.schema.ts`, field `status`). -/
inductive SessionStatus where
  | connecting
  | connected
  | disconnected
  | qr_required
deriving DecidableEq, Repr

/-- A persisted `Session` document (`session.schema.ts`). -/
structure Session where
  clientId : String
  phoneNumber : Option String := none
  status : SessionStatus := .disconnected
  lastActivity : Option Nat := none
  qrCode : Option String := none
  messageCount : Nat := 0
deriving DecidableEq, Repr

/-- A persisted `Message` document (`message.schema.ts`).  The `type`,
`status` and `direction` enums are carried as the strings the service
writes. -/
structure Message where
  clientId : String
  messageId : String
  from_ : String
  to_ : String
  body : String
  type : String := "text"
  status : String := "sent"
  direction : String := "outgoing"
deriving DecidableEq, Repr

/-- A persisted `Webhook` subscription document (`webhook.schema.ts`). -/
structure Webhook where
  clientId : String
  url : String
  enabled : Bool := true
  events : List String := []
  secret : Option String := none
deriving DecidableEq, Repr

/-- The `info.wid` data of a live `whatsapp-web.js` client: presence
identifier (`wid.user`) and its serialized form (`wid._serialized`). -/
structure ClientInfo where
  widUser : String
  widSerialized : String
deriving DecidableEq, Repr

/-- A live client handle held in the registry (`this.clients`): the opaque
`whatsapp-web.js` `Client`, of which the service reads the `info` presence
field and the capability-reported state string (`getState`). -/
structure ClientHandle where
  info : Option ClientInfo := none
  state : String := "unknown"
deriving DecidableEq, Repr

/-- The whole mutable state of `WhatsAppService`: the three persisted
collections plus the four in-memory structures, and the set of identities
whose on-disk `wa-sessions/session-<id>` auth directory exists. -/
structure ServiceState where
  sessions : List Session := []
  messages : List Message := []
  webhooks : List Webhook := []
  clients : List (String × ClientHandle) := []
  qrCodes : List (String × String) := []
  initializing : List String := []
  readyTimeouts : List String := []
  authDirs : List String := []
deriving DecidableEq, Repr

/-- Association-list lookup (`Map.get`). -/
def lookupA {α : Type} (k : String) (l : List (String × α)) : Option α :=
  (l.find? (fun p => p.1 == k)).map (fun p => p.2)

/-- Association-list removal (`Map.delete`). -/
def eraseA {α : Type} (k : String) (l : List (String × α)) : List (String × α) :=
  l.filter (fun p => p.1 != k)

/-- Association-list insertion (`Map.set`). -/
def insertA {α : Type} (k : String) (v : α) (l : List (String × α)) : List (String × α) :=
  (k, v) :: eraseA k l

/-- Set removal (`Set.delete`). -/
def eraseS (k : String) (l : List String) : List String :=
  l.filter (fun x => x != k)

/-- Set insertion (`Set.add`). -/
def insertS (k : String) (l : List String) : List String :=
  k :: eraseS k l

/-- The document Mongo/Mongoose inserts on upsert when no document matches:
the query key plus the schema defaults of `session.schema.ts`. -/
def defaultSession (cid : String) : Session :=
  { clientId := cid }

/-- A `$set` update payload (`Partial<Session>`): `none` leaves a field
untouched.  For the two `Option`-valued fields a present update carries the
new stored value, so `qrCode := some none` models the `ready` handler's
`qrCode: undefined`, read generously as clearing the stored value. -/
structure SessionUpdate where
  status : Option SessionStatus := none
  phoneNumber : Option (Option String) := none
  lastActivity : Option Nat := none
  qrCode : Option (Option String) := none
  messageCount : Option Nat := none

/-- Apply a `$set` payload to one document. -/
def applyUpdates (s : Session) (u : SessionUpdate) : Session :=
  { s with
    status := u.status.getD s.status
    phoneNumber := u.phoneNumber.getD s.phoneNumber
    lastActivity := (u.lastActivity.map some).getD s.lastActivity
    qrCode := u.qrCode.getD s.qrCode
    messageCount := u.messageCount.getD s.messageCount }

/-- `updateOne({clientId}, {$set: updates}, {upsert: true})`: update the
first matching document, otherwise append a fresh defaulted one. -/
def upsertSessions (cid : String) (u : SessionUpdate) : List Session → List Session
  | [] => [applyUpdates (defaultSession cid) u]
  | s :: rest =>
    if s.clientId == cid then applyUpdates s u :: rest
    else s :: upsertSessions cid u rest

/-- `WhatsAppService.updateSession` (storage errors are logged and swallowed
in the source; the model takes the success path). -/
def updateSession (st : ServiceState) (cid : String) (u : SessionUpdate) : ServiceState :=
  { st with sessions := upsertSessions cid u st.sessions }

/-- `WhatsAppService.updateSessionStatus`: status plus `lastActivity`. -/
def updateSessionStatus (st : ServiceState) (cid : String) (status : SessionStatus)
    (ts : Nat) : ServiceState :=
  updateSession st cid { status := some status, lastActivity := some ts }

/-- `sessionModel.findOne({clientId})`. -/
def findSession (st : ServiceState) (cid : String) : Option Session :=
  st.sessions.find? (fun s => s.clientId == cid)

/-- The status the service reads back for an identity:
`session?.status || 'disconnected'`. -/
def persistedStatus (st : ServiceState) (cid : String) : SessionStatus :=
  ((findSession st cid).map (fun s => s.status)).getD .disconnected

/-- `messageModel.countDocuments({clientId})`. -/
def countMessages (st : ServiceState) (cid : String) : Nat :=
  (st.messages.filter (fun m => m.clientId == cid)).length

/-- `sessionModel.deleteOne({clientId})`: removes the first matching
document only (the schema's unique index keeps the collection at one
document per identity). -/
def deleteOneSession (cid : String) : List Session → List Session
  | [] => []
  | s :: rest => if s.clientId == cid then rest else s :: deleteOneSession cid rest

/-- A JSON value, as produced for webhook payloads. -/
inductive Json where
  | null
  | bool (b : Bool)
  | num (n : Int)
  | str (s : String)
  | arr (elems : List Json)
  | obj (fields : List (String × Json))

/-- `JSON.stringify` escaping for one character of a string value (quotes
and backslashes; the payloads at hand contain no control characters). -/
def escapeJsonChar (c : Char) : String :=
  if c = '"' then "\\\"" else if c = '\\' then "\\\\" else String.singleton c

/-- Render a JSON string literal. -/
def renderJsonStr (s : String) : String :=
  "\"" ++ String.join (s.data.map escapeJsonChar) ++ "\""

mutual
/-- `JSON.stringify`: field order is object insertion order, no spaces. -/
def renderJson : Json → String
  | .null => "null"
  | .bool b => if b then "true" else "false"
  | .num n => toString n
  | .str s => renderJsonStr s
  | .arr elems => "[" ++ renderJsonElems elems ++ "]"
  | .obj fields => "\x7b" ++ renderJsonFields fields ++ "\x7d"

def renderJsonElems : List Json → String
  | [] => ""
  | [j] => renderJson j
  | j :: rest => renderJson j ++ "," ++ renderJsonElems rest

def renderJsonFields : List (String × Json) → String
  | [] => ""
  | [(k, j)] => renderJsonStr k ++ ":" ++ renderJson j
  | (k, j) :: rest => renderJsonStr k ++ ":" ++ renderJson j ++ "," ++ renderJsonFields rest
end

/-- Reduce to a 32-bit word. -/
def w32 (n : Nat) : Nat := n % 4294967296

/-- 32-bit modular addition. -/
def add32 (a b : Nat) : Nat := (a + b) % 4294967296

/-- 32-bit right rotation. -/
def rotr32 (n x : Nat) : Nat := w32 ((x >>> n) ||| (x <<< (32 - n)))

/-- 32-bit complement. -/
def not32 (x : Nat) : Nat := Nat.xor x 4294967295

/-- The SHA-256 round constants (decimal). -/
def sha256K : List Nat :=
  [1116352408, 1899447441, 3049323471, 3921009573, 961987163, 1508970993,
   2453635748, 2870763221, 3624381080, 310598401, 607225278, 1426881987,
   1925078388, 2162078206, 2614888103, 3248222580, 3835390401, 4022224774,
   264347078, 604807628, 770255983, 1249150122, 1555081692, 1996064986,
   2554220882, 2821834349, 2952996808, 3210313671, 3336571891, 3584528711,
   113926993, 338241895, 666307205, 773529912, 1294757372, 1396182291,
   1695183700, 1986661051, 2177026350, 2456956037, 2730485921, 2820302411,
   3259730800, 3345764771, 3516065817, 3600352804, 4094571909, 275423344,
   430227734, 506948616, 659060556, 883997877, 958139571, 1322822218,
   1537002063, 1747873779, 1955562222, 2024104815, 2227730452, 2361852424,
   2428436474, 2756734187, 3204031479, 3329325298]

/-- The SHA-256 initial hash value (decimal). -/
def sha256H0 : List Nat :=
  [1779033703, 3144134277, 1013904242, 2773480762,
   1359893119, 2600822924, 528734635, 1541459225]

/-- Big-endian byte decomposition, `k` bytes. -/
def toBytesBE (k n : Nat) : List Nat :=
  (List.range k).map (fun i => (n >>> (8 * (k - 1 - i))) % 256)

/-- SHA-256 message padding: append `0x80`, zeros, and the 64-bit
big-endian bit length so the total is a multiple of 64 bytes. -/
def sha256pad (msg : List Nat) : List Nat :=
  let len := msg.length
  let padZeros := (119 - len % 64) % 64
  msg ++ [128] ++ List.replicate padZeros 0 ++ toBytesBE 8 (8 * len)

/-- Assemble big-endian 32-bit words out of bytes. -/
def bytesToWords : List Nat → List Nat
  | b0 :: b1 :: b2 :: b3 :: rest =>
    (((b0 * 256 + b1) * 256 + b2) * 256 + b3) :: bytesToWords rest
  | _ => []

/-- Split into 16-word blocks. -/
def toBlocks (ws : List Nat) : List (List Nat) :=
  if ws.length < 16 then [] else ws.take 16 :: toBlocks (ws.drop 16)
termination_by ws.length
decreasing_by
  simp only [List.length_drop]
  omega

/-- Extend a 16-word block to the 64-word message schedule. -/
def sha256schedule (block : List Nat) : Array Nat :=
  (List.range 48).foldl
    (fun w i =>
      let t := i + 16
      let s0 :=
        Nat.xor (Nat.xor (rotr32 7 w[t - 15]!) (rotr32 18 w[t - 15]!)) (w[t - 15]! >>> 3)
      let s1 :=
        Nat.xor (Nat.xor (rotr32 17 w[t - 2]!) (rotr32 19 w[t - 2]!)) (w[t - 2]! >>> 10)
      w.push (w32 (w[t - 16]! + s0 + w[t - 7]! + s1)))
    block.toArray

/-- One SHA-256 compression round. -/
def sha256round (k wt : Nat) (h : List Nat) : List Nat :=
  match h with
  | [a, b, c, d, e, f, g, hh] =>
    let S1 := Nat.xor (Nat.xor (rotr32 6 e) (rotr32 11 e)) (rotr32 25 e)
    let ch := Nat.xor (e &&& f) ((not32 e) &&& g)
    let temp1 := w32 (hh + S1 + ch + k + wt)
    let S0 := Nat.xor (Nat.xor (rotr32 2 a) (rotr32 13 a)) (rotr32 22 a)
    let maj := Nat.xor (Nat.xor (a &&& b) (a &&& c)) (b &&& c)
    let temp2 := w32 (S0 + maj)
    [add32 temp1 temp2, a, b, c, add32 d temp1, e, f, g]
  | other => other

/-- Compress one block into the running hash. -/
def sha256compress (hs : List Nat) (block : List Nat) : List Nat :=
  let w := sha256schedule block
  let out := (List.range 64).foldl
    (fun h i => sha256round (sha256K.getD i 0) (w[i]!) h) hs
  (hs.zip out).map (fun p => add32 p.1 p.2)

/-- SHA-256 of a byte list. -/
def sha256 (msg : List Nat) : List Nat :=
  let digestWords := (toBlocks (bytesToWords (sha256pad msg))).foldl sha256compress sha256H0
  digestWords.flatMap (toBytesBE 4)

/-- HMAC-SHA256 (64-byte block size). -/
def hmacSha256 (key msg : List Nat) : List Nat :=
  let key0 := if key.length > 64 then sha256 key else key
  let key1 := key0 ++ List.replicate (64 - key0.length) 0
  let ipad := key1.map (fun b => Nat.xor b 54)
  let opad := key1.map (fun b => Nat.xor b 92)
  sha256 (opad ++ sha256 (ipad ++ msg))

/-- One lowercase hexadecimal digit. -/
def hexDigit (n : Nat) : Char :=
  "0123456789abcdef".data.getD n '0'

/-- Lowercase hexadecimal rendering of a byte list (`digest('hex')`). -/
def bytesToHex (bs : List Nat) : String :=
  String.mk (bs.flatMap (fun b => [hexDigit (b / 16), hexDigit (b % 16)]))

/-- The UTF-8 bytes of a string. -/
def strBytes (s : String) : List Nat :=
  s.toUTF8.toList.map (fun b => b.toNat)

/-- `crypto.createHmac('sha256', secret).update(msg).digest('hex')`. -/
def hmacSha256Hex (secret msg : String) : String :=
  bytesToHex (hmacSha256 (strBytes secret) (strBytes msg))

/-- `webhookModel.findOne({clientId, enabled: true, $or: [{events: {$in:
[event]}}, {events: {$size: 0}}]})`: the first subscription for the identity
that is enabled and whose event filter is empty or contains the event. -/
def findMatchingWebhook (ws : List Webhook) (cid event : String) : Option Webhook :=
  ws.find? (fun w =>
    w.clientId == cid && w.enabled && (w.events.contains event || w.events.isEmpty))

/-- The JSON envelope `{event, clientId, timestamp, data}` built by
`WebhookService.sendWebhook`. -/
def envelopeJson (event cid ts : String) (data : Json) : Json :=
  .obj [("event", .str event), ("clientId", .str cid), ("timestamp", .str ts),
        ("data", data)]

/-- One outbound `axios.post` as issued by `sendWebhook`: target URL, the
serialized envelope (axios serializes the payload object exactly as
`JSON.stringify` does), the fixed headers, the optional signature header and
the 10s timeout. -/
structure OutboundPost where
  url : String
  body : String
  contentType : String
  userAgent : String
  signature : Option String
  timeoutMs : Nat
deriving DecidableEq, Repr

/-- Build the outbound post for a matched subscription: sign the serialized
envelope with HMAC-SHA256 when a secret is configured. -/
def buildPost (w : Webhook) (cid event ts : String) (data : Json) : OutboundPost :=
  let body := renderJson (envelopeJson event cid ts data)
  { url := w.url
    body := body
    contentType := "application/json"
    userAgent := "WhatsApp-API-Webhook/1.0"
    signature := w.secret.map (fun s => "sha256=" ++ hmacSha256Hex s body)
    timeoutMs := 10000 }

/-- `WebhookService.sendWebhook` on its success path: `none` when no
subscription matches (the function returns without posting), otherwise the
single outbound post. -/
def sendWebhook (st : ServiceState) (cid event : String) (data : Json) (ts : String) :
    Option OutboundPost :=
  (findMatchingWebhook st.webhooks cid event).map (fun w => buildPost w cid event ts data)

/-- Receiver-side signature check: recompute the keyed hash over the exact
body received and compare with the attached header. -/
def verifySignature (secret body header : String) : Bool :=
  header == "sha256=" ++ hmacSha256Hex secret body

/-- Injected faults for `sendWebhook`: the subscription lookup
(`webhookModel.findOne`) and the outbound `axios.post` may each reject.
Both sit inside the handler's single `try` block; the serialization and
signing steps between them are total. -/
structure WebhookFaults where
  lookupFails : Option String := none
  postFails : Option String := none
deriving DecidableEq, Repr

/-- The body of `sendWebhook`'s `try` block with faults injected: any
injected rejection surfaces as an `Except.error`. -/
def sendWebhookAttempt (faults : WebhookFaults) (st : ServiceState) (cid event : String)
    (data : Json) (ts : String) : Except String (Option OutboundPost) :=
  match faults.lookupFails with
  | some e => .error e
  | none =>
    match findMatchingWebhook st.webhooks cid event with
    | none => .ok none
    | some w =>
      match faults.postFails with
      | some e => .error e
      | none => .ok (some (buildPost w cid event ts data))

/-- What `sendWebhook` resolves to at its boundary: either the completed
body (delivered post or filtered no-op), or a failure that was caught and
only logged. -/
inductive WebhookOutcome where
  | completed (post : Option OutboundPost)
  | loggedFailure (e : String)
deriving DecidableEq, Repr

/-- `WebhookService.sendWebhook` as seen by its caller: the whole body is
wrapped in `try … catch` whose handler logs and returns, so the result is
always an `Except.ok`. -/
def sendWebhookSafe (faults : WebhookFaults) (st : ServiceState) (cid event : String)
    (data : Json) (ts : String) : Except String WebhookOutcome :=
  match sendWebhookAttempt faults st cid event data ts with
  | .ok r => .ok (.completed r)
  | .error e => .ok (.loggedFailure e)

/-- An invocation of the Dispatcher recorded by an event handler:
`this.webhookService.sendWebhook(clientId, event, data)`. -/
structure DispatchCall where
  clientId : String
  event : String
  data : Json

/-- `WhatsAppService.cleanupClient`: clear any pending ready timeout,
destroy and drop the registry handle, drop the cached QR and the
initializing flag. -/
def cleanupClient (st : ServiceState) (cid : String) : ServiceState :=
  { st with
    readyTimeouts := eraseS cid st.readyTimeouts
    clients := eraseA cid st.clients
    qrCodes := eraseA cid st.qrCodes
    initializing := eraseS cid st.initializing }

/-- `WhatsAppService.handleInitializationFailure`: clear timeouts, persist
`disconnected`, then `cleanupClient`. -/
def handleInitializationFailure (st : ServiceState) (cid : String) (ts : Nat) :
    ServiceState :=
  let st1 := { st with readyTimeouts := eraseS cid st.readyTimeouts }
  let st2 := updateSessionStatus st1 cid .disconnected ts
  cleanupClient st2 cid

/-- A raw connection event reconciled by `setupClientEventHandlers`.  For
`qr`, `count` is the handler-local `qrCount` after its increment and the
payload is the rendered QR data URL.  For `ready` and `manualReady` the
captured client's `info` field is passed explicitly. -/
inductive WAEvent where
  | qr (count : Nat) (qrDataUrl : String)
  | authenticated
  | ready (info : Option ClientInfo)
  | manualReady (info : Option ClientInfo)
  | disconnected (reason : String)
  | authFailure (message : String)

/-- The event handlers installed by `setupClientEventHandlers` (plus
`handleManualReady`), as one reconciliation step: the state after the
handler together with the Dispatcher calls it made. -/
def applyEvent (st : ServiceState) (cid : String) (ev : WAEvent) (ts : Nat) :
    ServiceState × List DispatchCall :=
  match ev with
  | .qr count qrDataUrl =>
    if count > 5 then
      (handleInitializationFailure st cid ts, [])
    else
      let st1 := { st with qrCodes := insertA cid qrDataUrl st.qrCodes }
      let st2 := updateSession st1 cid
        { status := some .qr_required, qrCode := some (some qrDataUrl) }
      (st2, [⟨cid, "qr_code",
              .obj [("qr", .str qrDataUrl), ("attempt", .num count)]⟩])
  | .authenticated =>
    let st1 := { st with qrCodes := eraseA cid st.qrCodes }
    let st2 := updateSessionStatus st1 cid .connecting ts
    let st3 := { st2 with readyTimeouts := insertS cid st2.readyTimeouts }
    (st3, [])
  | .ready info =>
    let st1 := { st with readyTimeouts := eraseS cid st.readyTimeouts }
    match info with
    | none => (st1, [])
    | some i =>
      let st2 := updateSession st1 cid
        { status := some .connected, phoneNumber := some (some i.widUser),
          lastActivity := some ts, qrCode := some none }
      let st3 := { st2 with qrCodes := eraseA cid st2.qrCodes }
      (st3, [⟨cid, "ready",
              .obj [("phoneNumber", .str i.widUser), ("clientId", .str cid)]⟩])
  | .manualReady info =>
    let phone := info.map (fun i => i.widUser)
    let st1 := updateSession st cid
      { status := some .connected, phoneNumber := some phone,
        lastActivity := some ts, qrCode := some none }
    let st2 := { st1 with qrCodes := eraseA cid st1.qrCodes }
    let st3 := { st2 with readyTimeouts := eraseS cid st2.readyTimeouts }
    (st3, [⟨cid, "ready",
            .obj [("phoneNumber", (phone.map Json.str).getD .null),
                  ("clientId", .str cid)]⟩])
  | .disconnected reason =>
    let st1 := { st with readyTimeouts := eraseS cid st.readyTimeouts }
    let st2 := updateSessionStatus st1 cid .disconnected ts
    let st3 := { st2 with clients := eraseA cid st2.clients,
                          qrCodes := eraseA cid st2.qrCodes }
    (st3, [⟨cid, "disconnected", .obj [("reason", .str reason)]⟩])
  | .authFailure message =>
    (handleInitializationFailure st cid ts,
     [⟨cid, "auth_failure", .obj [("message", .str message)]⟩])

/-- The result object of `initSession`. -/
structure InitResult where
  success : Bool
  status : String
deriving DecidableEq, Repr

/-- The tail of `initSession` once the guards have passed: mark
initializing, persist `connecting`, install handlers (which clears a stale
ready timeout), register the fresh handle, then race `client.initialize()`
(outcome injected).  The trailing `finally` clause drops the identity from
the initializing set. -/
def initSessionProceed (st : ServiceState) (cid : String) (ts : Nat)
    (initOutcome : Except String Unit) : InitResult × ServiceState :=
  let stA := { st with initializing := insertS cid st.initializing }
  let stB := updateSessionStatus stA cid .connecting ts
  let stC := { stB with readyTimeouts := eraseS cid stB.readyTimeouts }
  let stD := { stC with clients := insertA cid {} stC.clients }
  match initOutcome with
  | .ok _ =>
    (⟨true, "connecting"⟩,
     { stD with initializing := eraseS cid stD.initializing })
  | .error _ =>
    let stE := handleInitializationFailure stD cid ts
    (⟨false, "disconnected"⟩,
     { stE with initializing := eraseS cid stE.initializing })

/-- `WhatsAppService.initSession`.  Note that the `finally` clause
(`this.initializingClients.delete(clientId)`) runs on *every* exit path,
including the early "already initializing" rejection and the
already-connected short circuit. -/
def initSession (st : ServiceState) (cid : String) (ts : Nat)
    (initOutcome : Except String Unit) : InitResult × ServiceState :=
  if st.initializing.contains cid then
    (⟨false, "initializing"⟩,
     { st with initializing := eraseS cid st.initializing })
  else
    match lookupA cid st.clients with
    | some client =>
      if client.info.isSome then
        (⟨true, "connected"⟩,
         { st with initializing := eraseS cid st.initializing })
      else
        initSessionProceed (cleanupClient st cid) cid ts initOutcome
    | none => initSessionProceed st cid ts initOutcome

/-- The snapshot returned by `getSessionStatus`. -/
structure StatusSnapshot where
  clientId : String
  status : SessionStatus
  phoneNumber : Option String
  connected : Bool
  lastActivity : Option Nat
  messageCount : Nat
  qrCode : Option String
  isInitializing : Bool
  clientState : String
  hasClientInfo : Bool
deriving DecidableEq, Repr

/-- `WhatsAppService.getSessionStatus`: merges the persisted document with
the live registry.  `connected` is `!!(client && client.info)`; the QR
returned is the in-memory cached one. -/
def getSessionStatus (st : ServiceState) (cid : String) : StatusSnapshot :=
  let session := findSession st cid
  let client := lookupA cid st.clients
  { clientId := cid
    status := ((session.map (fun s => s.status)).getD .disconnected)
    phoneNumber := session.bind (fun s => s.phoneNumber)
    connected := (client.map (fun c => c.info.isSome)).getD false
    lastActivity := session.bind (fun s => s.lastActivity)
    messageCount := (session.map (fun s => s.messageCount)).getD 0
    qrCode := lookupA cid st.qrCodes
    isInitializing := st.initializing.contains cid
    clientState := (client.map (fun c => c.state)).getD "unknown"
    hasClientInfo := (client.map (fun c => c.info.isSome)).getD false }

/-- The success result of `sendMessage`. -/
structure SendOk where
  success : Bool
  messageId : String
  message : String
deriving DecidableEq, Repr

/-- `WhatsAppService.sendMessage`: fail if no registry handle, fail if the
handle has no presence (the handle is re-read after a bounded grace delay;
with no intervening reconciliation the re-check sees the same handle), else
send through the capability (outcome injected), persist the outgoing
Message and refresh the session counters.  Every thrown error is re-thrown
wrapped in `Failed to send message: `. -/
def sendMessage (st : ServiceState) (cid dest msg ty : String) (ts : Nat)
    (sendOutcome : Except String String) : Except String SendOk × ServiceState :=
  match lookupA cid st.clients with
  | none => (.error ("Failed to send message: " ++ "Client not found"), st)
  | some client =>
    match client.info with
    | none =>
      (.error ("Failed to send message: " ++
        "Client not ready. Please ensure WhatsApp is connected and try again."), st)
    | some info =>
      let chatId := if dest.contains '@' then dest else dest ++ "@c.us"
      match sendOutcome with
      | .error e => (.error ("Failed to send message: " ++ e), st)
      | .ok sentId =>
        let newMsg : Message :=
          { clientId := cid, messageId := sentId, from_ := info.widSerialized,
            to_ := chatId, body := msg, type := ty,
            direction := "outgoing", status := "sent" }
        let st1 := { st with messages := st.messages ++ [newMsg] }
        let st2 := updateSession st1 cid
          { lastActivity := some ts, messageCount := some (countMessages st1 cid) }
        (.ok ⟨true, sentId, "Message sent successfully"⟩, st2)

/-- The `{success, message}` result of the supervisor operations. -/
structure OpResult where
  success : Bool
  message : String
deriving DecidableEq, Repr

/-- `WhatsAppService.deleteSession`: cleanup the live handle, remove the
on-disk `session-<clientId>` auth directory, drop the cached QR, delete the
Session document and all Message documents of the identity. -/
def deleteSession (st : ServiceState) (cid : String) : OpResult × ServiceState :=
  let st1 := cleanupClient st cid
  let st2 := { st1 with authDirs := eraseS cid st1.authDirs }
  let st3 := { st2 with qrCodes := eraseA cid st2.qrCodes }
  let st4 := { st3 with sessions := deleteOneSession cid st3.sessions }
  let st5 := { st4 with messages := st4.messages.filter (fun m => m.clientId != cid) }
  (⟨true, "Session deleted successfully"⟩, st5)

/-- `WhatsAppService.restartSession`: cleanup, persist `disconnected`,
schedule the delayed `initSession` (its outcome is not awaited), and return
immediately.  The third component records that the re-attempt was
scheduled. -/
def restartSession (st : ServiceState) (cid : String) (ts : Nat) :
    OpResult × ServiceState × Bool :=
  let st1 := cleanupClient st cid
  let st2 := updateSessionStatus st1 cid .disconnected ts
  (⟨true, "Session restart initiated"⟩, st2, true)

/-! ## Store lemmas -/

theorem lookupA_insertA_self {α : Type} (k : String) (v : α) (l : List (String × α)) :
    lookupA k (insertA k v l) = some v := by
  simp [lookupA, insertA]

theorem lookupA_eraseA_self {α : Type} (k : String) (l : List (String × α)) :
    lookupA k (eraseA k l) = none := by
  have h : (l.filter (fun p => p.1 != k)).find? (fun p => p.1 == k) = none := by
    rw [List.find?_eq_none]
    intro p hp
    simp only [List.mem_filter, bne_iff_ne, ne_eq] at hp
    simp [hp.2]
  simp [lookupA, eraseA, h]

theorem contains_eraseS_self (k : String) (l : List String) :
    (eraseS k l).contains k = false := by
  simp only [eraseS, List.contains_eq_any_beq, List.any_eq_false]
  intro x hx
  simp only [List.mem_filter, bne_iff_ne, ne_eq] at hx
  simp only [beq_iff_eq]
  exact fun h => hx.2 h.symm

theorem clientId_applyUpdates (s : Session) (u : SessionUpdate) :
    (applyUpdates s u).clientId = s.clientId := rfl

theorem find?_upsertSessions (cid : String) (u : SessionUpdate) (l : List Session) :
    (upsertSessions cid u l).find? (fun s => s.clientId == cid) =
      some (applyUpdates ((l.find? (fun s => s.clientId == cid)).getD (defaultSession cid)) u) := by
  induction l with
  | nil => simp [upsertSessions, clientId_applyUpdates, defaultSession]
  | cons s rest ih =>
    by_cases h : s.clientId = cid
    · simp [upsertSessions, h, clientId_applyUpdates]
    · simp only [upsertSessions, beq_iff_eq, h, if_false]
      rw [List.find?_cons_of_neg, List.find?_cons_of_neg, ih] <;> simp [h]

theorem findSession_updateSession (st : ServiceState) (cid : String) (u : SessionUpdate) :
    findSession (updateSession st cid u) cid =
      some (applyUpdates ((findSession st cid).getD (defaultSession cid)) u) := by
  simp [findSession, updateSession, find?_upsertSessions]

theorem persistedStatus_updateSession (st : ServiceState) (cid : String) (u : SessionUpdate) :
    persistedStatus (updateSession st cid u) cid =
      u.status.getD (persistedStatus st cid) := by
  rw [persistedStatus, findSession_updateSession]
  cases h : findSession st cid <;>
    simp [persistedStatus, h, applyUpdates, defaultSession]

theorem find?_deleteOneSession (cid : String) (l : List Session)
    (h : l.countP (fun s => s.clientId == cid) ≤ 1) :
    (deleteOneSession cid l).find? (fun s => s.clientId == cid) = none := by
  induction l with
  | nil => simp [deleteOneSession]
  | cons s rest ih =>
    by_cases hs : s.clientId = cid
    · simp only [deleteOneSession, beq_iff_eq, hs, if_true]
      rw [List.countP_cons_of_pos _ _ (by simp [hs])] at h
      rw [List.find?_eq_none]
      intro x hx
      have hz : rest.countP (fun s => s.clientId == cid) = 0 := by omega
      rw [List.countP_eq_zero] at hz
      exact hz x hx
    · simp only [deleteOneSession, beq_iff_eq, hs, if_false]
      rw [List.countP_cons_of_neg _ _ (by simp [hs])] at h
      rw [List.find?_cons_of_neg _ (by simp [hs])]
      exact ih h

/-! ## Consequences of the failure-convergence path -/

theorem persistedStatus_handleInitFailure (st : ServiceState) (cid : String) (ts : Nat) :
    persistedStatus (handleInitializationFailure st cid ts) cid = .disconnected := by
  have h1 : persistedStatus (handleInitializationFailure st cid ts) cid =
      persistedStatus (updateSessionStatus
        { st with readyTimeouts := eraseS cid st.readyTimeouts } cid .disconnected ts) cid := rfl
  rw [h1, updateSessionStatus, persistedStatus_updateSession]
  rfl

theorem clients_handleInitFailure (st : ServiceState) (cid : String) (ts : Nat) :
    lookupA cid (handleInitializationFailure st cid ts).clients = none :=
  lookupA_eraseA_self cid st.clients

theorem qrCodes_handleInitFailure (st : ServiceState) (cid : String) (ts : Nat) :
    lookupA cid (handleInitializationFailure st cid ts).qrCodes = none :=
  lookupA_eraseA_self cid st.qrCodes

/-! ## Example states used by witnesses and counterexamples -/

/-- A state in which identity `A` is mid-initialization: the guard is set
and a fresh handle (no presence yet) sits in the registry, with the session
persisted as `connecting` by the in-flight first call. -/
def c1State : ServiceState :=
  { sessions := [{ clientId := "A", status := .connecting, lastActivity := some 5 }],
    clients := [("A", {})],
    initializing := ["A"] }

/-- A connected session of identity `A` with a stored message and its auth
directory on disk. -/
def c8State : ServiceState :=
  { sessions := [{ clientId := "A", status := .connected,
                   phoneNumber := some "15551234567", messageCount := 1 }],
    messages := [{ clientId := "A", messageId := "m1", from_ := "x@c.us",
                   to_ := "15551234567@c.us", body := "hello" }],
    clients := [("A", { info := some ⟨"15551234567", "15551234567@c.us"⟩ })],
    authDirs := ["A"] }

/-! ## Claim theorems -/

/-- C10: `restartSession` returns `{success: true, message: 'Session restart
initiated'}` unconditionally, after cleanup and persisting `disconnected`;
the delayed re-initialization attempt is merely scheduled and its outcome is
never reflected in the return value. -/
theorem c10_restart_unconditional (st : ServiceState) (cid : String) (ts : Nat) :
    (restartSession st cid ts).1 = ⟨true, "Session restart initiated"⟩ ∧
    persistedStatus (restartSession st cid ts).2.1 cid = .disconnected ∧
    (restartSession st cid ts).2.2 = true := by
  refine ⟨rfl, ?_, rfl⟩
  simp [restartSession, updateSessionStatus, persistedStatus_updateSession]

/-- C9: with no live handle in the registry, `sendMessage` fails with the
descriptive `Client not found` failure (re-thrown by the catch clause with
the `Failed to send message: ` prefix) and leaves the entire state
untouched: no Message record is created and the session is not updated. -/
theorem c9_send_no_handle (st : ServiceState) (cid dest msg ty : String) (ts : Nat)
    (o : Except String String) (h : lookupA cid st.clients = none) :
    sendMessage st cid dest msg ty ts o =
      (.error ("Failed to send message: " ++ "Client not found"), st) := by
  simp [sendMessage, h]

/-- Witness for `c9_send_no_handle` at an empty registry. -/
theorem c9_send_no_handle_witness :
    lookupA "B" (ServiceState.clients {}) = none ∧
    sendMessage {} "B" "1555" "hi" "text" 0 (.ok "m1") =
      (.error ("Failed to send message: " ++ "Client not found"), {}) :=
  ⟨rfl, c9_send_no_handle {} "B" "1555" "hi" "text" 0 (.ok "m1") rfl⟩

/-- C8: `deleteSession` removes the Session document, every Message document
of the identity and its on-disk auth directory; the subsequent status query
answers the not-found default: `disconnected`, zero messages, no QR, not
connected.  The hypothesis is the uniqueness the schema's unique index on
`clientId` guarantees (`deleteOne` removes a single document). -/
theorem c8_delete_purges (st : ServiceState) (cid : String)
    (hUnique : st.sessions.countP (fun s => s.clientId == cid) ≤ 1) :
    findSession (deleteSession st cid).2 cid = none ∧
    (deleteSession st cid).2.messages.filter (fun m => m.clientId == cid) = [] ∧
    (deleteSession st cid).2.authDirs.contains cid = false ∧
    (getSessionStatus (deleteSession st cid).2 cid).status = .disconnected ∧
    (getSessionStatus (deleteSession st cid).2 cid).messageCount = 0 ∧
    (getSessionStatus (deleteSession st cid).2 cid).qrCode = none ∧
    (getSessionStatus (deleteSession st cid).2 cid).connected = false := by
  have hfind : findSession (deleteSession st cid).2 cid = none := by
    simp only [deleteSession, cleanupClient, findSession]
    exact find?_deleteOneSession cid st.sessions hUnique
  have hmsg : (deleteSession st cid).2.messages.filter (fun m => m.clientId == cid) = [] := by
    simp only [deleteSession, cleanupClient, List.filter_filter]
    rw [List.filter_eq_nil_iff]
    intro m _
    by_cases h : m.clientId = cid <;> simp [h]
  refine ⟨hfind, hmsg, ?_, ?_, ?_, ?_, ?_⟩
  · exact contains_eraseS_self cid st.authDirs
  · simp [getSessionStatus, hfind]
  · simp [getSessionStatus, hfind]
  · simp only [deleteSession, cleanupClient, getSessionStatus]
    simp [lookupA_eraseA_self]
  · simp only [deleteSession, cleanupClient, getSessionStatus]
    simp [lookupA_eraseA_self]

/-- Witness for `c8_delete_purges` on a populated state. -/
theorem c8_delete_purges_witness :
    (c8State.sessions.countP (fun s => s.clientId == "A") ≤ 1) ∧
    findSession (deleteSession c8State "A").2 "A" = none ∧
    (getSessionStatus (deleteSession c8State "A").2 "A").status = .disconnected ∧
    (getSessionStatus (deleteSession c8State "A").2 "A").messageCount = 0 :=
  ⟨by decide,
   (c8_delete_purges c8State "A" (by decide)).1,
   (c8_delete_purges c8State "A" (by decide)).2.2.2.1,
   (c8_delete_purges c8State "A" (by decide)).2.2.2.2.1⟩

/-- C4: once `qrCount` exceeds 5, the `qr` handler treats the attempt as an
initialization failure: the persisted status becomes `disconnected`, the
handle and cached QR are destroyed, and no Dispatcher call at all is made —
in particular no `qr_code` webhook notification for the sixth or any later
issuance. -/
theorem c4_qr_overflow_fails (st : ServiceState) (cid qrUrl : String) (count ts : Nat)
    (h : count > 5) :
    persistedStatus (applyEvent st cid (.qr count qrUrl) ts).1 cid = .disconnected ∧
    lookupA cid (applyEvent st cid (.qr count qrUrl) ts).1.clients = none ∧
    lookupA cid (applyEvent st cid (.qr count qrUrl) ts).1.qrCodes = none ∧
    (applyEvent st cid (.qr count qrUrl) ts).2 = [] := by
  have hs : applyEvent st cid (.qr count qrUrl) ts =
      (handleInitializationFailure st cid ts, []) := by
    simp [applyEvent, h]
  rw [hs]
  exact ⟨persistedStatus_handleInitFailure st cid ts,
         clients_handleInitFailure st cid ts,
         qrCodes_handleInitFailure st cid ts, rfl⟩

/-- Witness for `c4_qr_overflow_fails` at the sixth QR issuance. -/
theorem c4_qr_overflow_fails_witness :
    (6 > 5) ∧
    persistedStatus (applyEvent {} "A" (.qr 6 "data:qr6") 0).1 "A" = .disconnected ∧
    (applyEvent {} "A" (.qr 6 "data:qr6") 0).2 = [] :=
  ⟨by decide,
   (c4_qr_overflow_fails {} "A" "data:qr6" 6 0 (by decide)).1,
   (c4_qr_overflow_fails {} "A" "data:qr6" 6 0 (by decide)).2.2.2⟩

/-- C1: a start request arriving while the identity is marked initializing
is rejected synchronously with `success=false, status='initializing'` and
leaves the persisted record, registry handle and QR cache untouched — but,
contrary to the claim, the `finally` clause of `initSession` runs on this
early-return path too and **removes the identity from the initializing
set**, so the guard protecting the in-flight first attempt is cleared by
the rejected call. -/
theorem c1_reject_clears_guard (st : ServiceState) (cid : String) (ts : Nat)
    (o : Except String Unit) (h : st.initializing.contains cid = true) :
    (initSession st cid ts o).1 = ⟨false, "initializing"⟩ ∧
    (initSession st cid ts o).2.sessions = st.sessions ∧
    (initSession st cid ts o).2.clients = st.clients ∧
    (initSession st cid ts o).2.qrCodes = st.qrCodes ∧
    (initSession st cid ts o).2.initializing = eraseS cid st.initializing ∧
    (initSession st cid ts o).2.initializing.contains cid = false := by
  have hs : initSession st cid ts o =
      (⟨false, "initializing"⟩, { st with initializing := eraseS cid st.initializing }) := by
    rw [initSession, if_pos h]
  rw [hs]
  exact ⟨rfl, rfl, rfl, rfl, rfl, contains_eraseS_self cid st.initializing⟩

/-- Witness for `c1_reject_clears_guard`: identity `A` is mid-initialization
(guard set, fresh handle registered); the duplicate start call is rejected
and the guard comes back cleared. -/
theorem c1_reject_clears_guard_witness :
    c1State.initializing.contains "A" = true ∧
    (initSession c1State "A" 0 (.ok ())).1 = ⟨false, "initializing"⟩ ∧
    (initSession c1State "A" 0 (.ok ())).2.initializing.contains "A" = false :=
  ⟨by decide,
   (c1_reject_clears_guard c1State "A" 0 (.ok ()) (by decide)).1,
   (c1_reject_clears_guard c1State "A" 0 (.ok ()) (by decide)).2.2.2.2.2⟩

/-- The per-identity relation claimed as an invariant between the QR value
and the persisted status, read on the in-memory QR cache. -/
def qrStatusInv (st : ServiceState) (cid : String) : Prop :=
  ((lookupA cid st.qrCodes).isSome = true) ↔ persistedStatus st cid = .qr_required

theorem persistedStatus_congr (st st' : ServiceState) (cid : String)
    (hs : st'.sessions = st.sessions) :
    persistedStatus st' cid = persistedStatus st cid := by
  simp [persistedStatus, findSession, hs]

theorem persistedStatus_updateSessionStatus (st : ServiceState) (cid : String)
    (s : SessionStatus) (ts : Nat) :
    persistedStatus (updateSessionStatus st cid s ts) cid = s := by
  rw [updateSessionStatus, persistedStatus_updateSession]
  rfl

theorem qrStatusInv_of_erased (st' : ServiceState) (cid : String)
    (hq : lookupA cid st'.qrCodes = none)
    (hs : persistedStatus st' cid ≠ .qr_required) : qrStatusInv st' cid := by
  simp [qrStatusInv, hq, hs]

theorem qrStatusInv_of_set (st' : ServiceState) (cid : String) (q : String)
    (hq : lookupA cid st'.qrCodes = some q)
    (hs : persistedStatus st' cid = .qr_required) : qrStatusInv st' cid := by
  simp [qrStatusInv, hq, hs]

/-- C2 (amended): every reconciled event handler preserves the iff between
the *in-memory* QR cache entry and a persisted status of `qr_required` —
the handlers that move the status away from `qr_required` all delete the
cache entry, and the QR handler re-establishes both sides.  (The persisted
`qrCode` field does not satisfy the claimed iff: see the counterexample.) -/
theorem c2_qr_cache_inv_preserved (st : ServiceState) (cid : String) (ev : WAEvent)
    (ts : Nat) (h : qrStatusInv st cid) :
    qrStatusInv (applyEvent st cid ev ts).1 cid := by
  cases ev with
  | qr count qrUrl =>
    by_cases hc : count > 5
    · have hs : (applyEvent st cid (.qr count qrUrl) ts).1 =
          handleInitializationFailure st cid ts := by
        simp [applyEvent, hc]
      rw [hs]
      exact qrStatusInv_of_erased _ cid (qrCodes_handleInitFailure st cid ts)
        (by rw [persistedStatus_handleInitFailure]; simp)
    · have hs : (applyEvent st cid (.qr count qrUrl) ts).1 =
          updateSession { st with qrCodes := insertA cid qrUrl st.qrCodes } cid
            { status := some .qr_required, qrCode := some (some qrUrl) } := by
        simp [applyEvent, hc]
      rw [hs]
      refine qrStatusInv_of_set _ cid qrUrl ?_ ?_
      · exact lookupA_insertA_self cid qrUrl st.qrCodes
      · rw [persistedStatus_updateSession]
        rfl
  | authenticated =>
    refine qrStatusInv_of_erased _ cid ?_ ?_
    · exact lookupA_eraseA_self cid st.qrCodes
    · rw [persistedStatus_congr
        (updateSessionStatus { st with qrCodes := eraseA cid st.qrCodes } cid
          .connecting ts) ((applyEvent st cid WAEvent.authenticated ts).1) cid rfl,
        persistedStatus_updateSessionStatus]
      simp
  | ready info =>
    cases info with
    | none => exact h
    | some i =>
      refine qrStatusInv_of_erased _ cid ?_ ?_
      · exact lookupA_eraseA_self cid st.qrCodes
      · rw [persistedStatus_congr
          (updateSession { st with readyTimeouts := eraseS cid st.readyTimeouts } cid
            { status := some .connected, phoneNumber := some (some i.widUser),
              lastActivity := some ts, qrCode := some none })
          ((applyEvent st cid (WAEvent.ready (some i)) ts).1) cid rfl,
          persistedStatus_updateSession]
        simp
  | manualReady info =>
    refine qrStatusInv_of_erased _ cid ?_ ?_
    · exact lookupA_eraseA_self cid st.qrCodes
    · rw [persistedStatus_congr
        (updateSession st cid
          { status := some .connected, phoneNumber := some (info.map (fun i => i.widUser)),
            lastActivity := some ts, qrCode := some none })
        ((applyEvent st cid (WAEvent.manualReady info) ts).1) cid rfl,
        persistedStatus_updateSession]
      simp
  | disconnected reason =>
    refine qrStatusInv_of_erased _ cid ?_ ?_
    · exact lookupA_eraseA_self cid st.qrCodes
    · rw [persistedStatus_congr
        (updateSessionStatus { st with readyTimeouts := eraseS cid st.readyTimeouts } cid
          .disconnected ts) ((applyEvent st cid (WAEvent.disconnected reason) ts).1) cid rfl,
        persistedStatus_updateSessionStatus]
      simp
  | authFailure message =>
    have hs : (applyEvent st cid (.authFailure message) ts).1 =
        handleInitializationFailure st cid ts := rfl
    rw [hs]
    exact qrStatusInv_of_erased _ cid (qrCodes_handleInitFailure st cid ts)
      (by rw [persistedStatus_handleInitFailure]; simp)

/-- Witness for `c2_qr_cache_inv_preserved`: the invariant holds on the
empty store and is preserved across an `authenticated` event. -/
theorem c2_qr_cache_inv_preserved_witness :
    qrStatusInv {} "A" ∧ qrStatusInv (applyEvent {} "A" .authenticated 7).1 "A" :=
  ⟨by simp [qrStatusInv, lookupA, persistedStatus, findSession],
   c2_qr_cache_inv_preserved {} "A" .authenticated 7
     (by simp [qrStatusInv, lookupA, persistedStatus, findSession])⟩

/-- The state after one QR issuance for identity `A` followed by a
`disconnected` event, starting from an empty store. -/
def c2State : ServiceState :=
  (applyEvent (applyEvent {} "A" (.qr 1 "data:qr") 100).1 "A"
    (.disconnected "NAVIGATION") 200).1

/-- C2 (counterexample): after QR issuance and a subsequent disconnect the
persisted status is `disconnected` yet the persisted `qrCode` field still
holds the QR payload — the `disconnected` handler (like the
`authenticated` one) clears only the in-memory cache and persists its
status without touching the stored `qrCode`, refuting the claimed iff for
the persisted field. -/
theorem c2_counterexample :
    persistedStatus c2State "A" = .disconnected ∧
    (findSession c2State "A").bind (fun s => s.qrCode) = some "data:qr" ∧
    ¬ ((((findSession c2State "A").bind (fun s => s.qrCode)).isSome = true) ↔
        persistedStatus c2State "A" = .qr_required) := by
  refine ⟨by decide, by decide, ?_⟩
  intro hiff
  have h1 : (((findSession c2State "A").bind (fun s => s.qrCode)).isSome = true) := by decide
  have h2 : persistedStatus c2State "A" = .qr_required := hiff.mp h1
  exact absurd h2 (by decide)

/-- A persisted `connecting` session whose live handle has presence. -/
def c3State : ServiceState :=
  { sessions := [{ clientId := "A", status := .connecting }],
    clients := [("A", { info := some ⟨"15551234567", "15551234567@c.us"⟩,
                        state := "CONNECTED" })] }

/-- C3 (counterexample): `getSessionStatus` computes `connected` as
`!!(client && client.info)` only — here the flag is `true` while the
persisted status is `connecting`, refuting the claim that `connected=true`
requires a persisted status of `connected`. -/
theorem c3_counterexample :
    (getSessionStatus c3State "A").connected = true ∧
    persistedStatus c3State "A" ≠ .connected := by
  refine ⟨by decide, by decide⟩

/-- C3 (amended): the `connected` flag of `getSessionStatus` is true iff a
live handle exists for the identity and its `info` presence is populated —
irrespective of the persisted status.  (The converse half of the original
claim survives: a persisted `connected` status alone, with no live handle,
yields `connected=false`.) -/
theorem c3_connected_iff_live_presence (st : ServiceState) (cid : String) :
    (getSessionStatus st cid).connected = true ↔
      ∃ c, lookupA cid st.clients = some c ∧ c.info.isSome = true := by
  cases hc : lookupA cid st.clients <;> simp [getSessionStatus, hc]

/-- C5: `sendWebhook` performs an outbound delivery iff some subscription
document of the identity is enabled and its event filter is empty or
contains the event; otherwise the call is a no-op. -/
theorem c5_delivery_iff_subscribed (st : ServiceState) (cid event : String)
    (data : Json) (ts : String) :
    (sendWebhook st cid event data ts).isSome = true ↔
      ∃ w ∈ st.webhooks, w.clientId = cid ∧ w.enabled = true ∧
        (w.events = [] ∨ event ∈ w.events) := by
  rw [sendWebhook, Option.isSome_map', findMatchingWebhook, List.find?_isSome]
  constructor
  · rintro ⟨w, hw, hp⟩
    simp only [Bool.and_eq_true, Bool.or_eq_true, beq_iff_eq,
      List.isEmpty_eq_true] at hp
    refine ⟨w, hw, hp.1.1, hp.1.2, ?_⟩
    rcases hp.2 with hmem | hempty
    · exact Or.inr (List.elem_iff.mp hmem)
    · exact Or.inl hempty
  · rintro ⟨w, hw, h1, h2, h3⟩
    refine ⟨w, hw, ?_⟩
    simp only [Bool.and_eq_true, Bool.or_eq_true, beq_iff_eq,
      List.isEmpty_eq_true]
    refine ⟨⟨h1, h2⟩, ?_⟩
    rcases h3 with hempty | hmem
    · exact Or.inr hempty
    · exact Or.inl (List.elem_iff.mpr hmem)

/-- C6: when the matched subscription carries a signing secret, the
delivered post's signature header is exactly `sha256=` followed by the
hex HMAC-SHA256, keyed by that secret, of the very serialized envelope
that makes up the request body, and recomputing the keyed hash over the
delivered body verifies the header (round trip). -/
theorem c6_signature_round_trip (st : ServiceState) (cid event ts : String)
    (data : Json) (w : Webhook) (s : String)
    (hfind : findMatchingWebhook st.webhooks cid event = some w)
    (hsec : w.secret = some s) :
    ∃ post, sendWebhook st cid event data ts = some post ∧
      post.body = renderJson (envelopeJson event cid ts data) ∧
      post.signature = some ("sha256=" ++ hmacSha256Hex s post.body) ∧
      verifySignature s post.body ("sha256=" ++ hmacSha256Hex s post.body) = true := by
  refine ⟨buildPost w cid event ts data, ?_, rfl, ?_, ?_⟩
  · rw [sendWebhook, hfind]
    rfl
  · show (buildPost w cid event ts data).signature = _
    rw [buildPost]
    simp [hsec]
  · simp [verifySignature]

/-- The signed subscription used to witness the signature property. -/
def c6Hook : Webhook :=
  { clientId := "A", url := "https://example.com/hook", enabled := true,
    events := [], secret := some "topsecret" }

/-- Witness for `c6_signature_round_trip` on a concrete signed
subscription. -/
theorem c6_signature_round_trip_witness :
    findMatchingWebhook [c6Hook] "A" "ready" = some c6Hook ∧
    c6Hook.secret = some "topsecret" ∧
    (∃ post, sendWebhook { webhooks := [c6Hook] } "A" "ready"
        (Json.obj [("clientId", .str "A")]) "2026-01-01T00:00:00.000Z" = some post ∧
      post.body = renderJson (envelopeJson "ready" "A" "2026-01-01T00:00:00.000Z"
        (Json.obj [("clientId", .str "A")])) ∧
      post.signature = some ("sha256=" ++ hmacSha256Hex "topsecret" post.body) ∧
      verifySignature "topsecret" post.body
        ("sha256=" ++ hmacSha256Hex "topsecret" post.body) = true) :=
  ⟨rfl, rfl,
   c6_signature_round_trip { webhooks := [c6Hook] } "A" "ready"
     "2026-01-01T00:00:00.000Z" (Json.obj [("clientId", .str "A")])
     c6Hook "topsecret" rfl rfl⟩

/-- C7: `sendWebhook` never propagates an error to its caller — whatever
faults the lookup or the outbound post inject, the boundary result is an
`ok`, and an inner failure surfaces only as a logged-failure outcome. -/
theorem c7_webhook_never_throws (faults : WebhookFaults) (st : ServiceState)
    (cid event : String) (data : Json) (ts : String) :
    (∃ r, sendWebhookSafe faults st cid event data ts = .ok r) ∧
    (∀ e, sendWebhookAttempt faults st cid event data ts = .error e →
      sendWebhookSafe faults st cid event data ts = .ok (.loggedFailure e)) := by
  constructor
  · rw [sendWebhookSafe]
    cases sendWebhookAttempt faults st cid event data ts with
    | ok r => exact ⟨.completed r, rfl⟩
    | error e => exact ⟨.loggedFailure e, rfl⟩
  · intro e he
    rw [sendWebhookSafe, he]

/-- The unsigned subscription and injected post failure used to witness the
webhook fault handling. -/
def c7Hook : Webhook :=
  { clientId := "A", url := "https://example.com/hook", enabled := true, events := [] }

/-- Witness for `c7_webhook_never_throws`: the outbound post rejects with a
timeout, and the boundary still resolves to an `ok` logged failure. -/
theorem c7_webhook_never_throws_witness :
    (∃ r, sendWebhookSafe { postFails := some "timeout of 10000ms exceeded" }
        { webhooks := [c7Hook] } "A" "ready" Json.null "t" = .ok r) ∧
    sendWebhookSafe { postFails := some "timeout of 10000ms exceeded" }
        { webhooks := [c7Hook] } "A" "ready" Json.null "t" =
      .ok (.loggedFailure "timeout of 10000ms exceeded") :=
  ⟨(c7_webhook_never_throws { postFails := some "timeout of 10000ms exceeded" }
      { webhooks := [c7Hook] } "A" "ready" Json.null "t").1,
   (c7_webhook_never_throws { postFails := some "timeout of 10000ms exceeded" }
      { webhooks := [c7Hook] } "A" "ready" Json.null "t").2
     "timeout of 10000ms exceeded" rfl⟩
